import Mathlib

/-!
Verification development for the thctl Lotus client core.

The repository contains three competing implementations of the same JSON-RPC
client (two in internal/lotus/client.go, one more in another copy of the lotus
package).  We embed the functions the specification's testable properties talk
about:

  * the numeric formatters formatBytes / formatAttoFil and the power-share
    computation calculatePowerShare (identical in all variants);
  * endpoint resolution (multiaddress to HTTP URL);
  * the three retry wrappers: client.go's first callRPCWithRetry (single
    attempt after multiaddr resolution), client.go's second, retrying callRPC
    (retryCount+1 attempts, retrying every error), and the other copy's
    callRPCWithRetry (a fixed three attempts, ignoring retryCount);
  * the asyncRetry helper and its isRetryableError classifier;
  * the two comprehensive-miner-info aggregators: the tolerant one from
    client.go (supplementary failures leave zero values) and the
    errgroup-based one (any sub-call failure fails the aggregate);
  * ListSectors and GetBalance.

Conventions of the embedding: Go errors are their message strings (this code
builds all its errors with fmt.Errorf; the typed LotusError values defined in
errors.go are never produced on these paths).  Go's math/big arbitrary
precision floats are modelled by exact unnormalized fractions; every division
appearing in the claims is exact at the claimed inputs, so the model agrees
with big.Float there.
Remote calls are abstracted by explicit outcome-valued fakes, and functions
return the number of transport invocations they perform alongside their
result.  The concurrent fan-outs are sequentialized: each task touches
disjoint fields of the result record, so any schedule yields the same record,
and for the errgroup variant only the presence of an error is stated.
-/

/-! ## String helpers (modelling strings.HasPrefix, strings.Contains,
strings.Split, strings.ToLower and decimal parsing on character lists,
so that everything reduces by kernel computation) -/

def chStart : List Char → List Char → Bool
  | _, [] => true
  | [], _ :: _ => false
  | a :: as, b :: bs => a = b && chStart as bs

def strStarts (s pre : String) : Bool :=
  chStart s.data pre.data

def chContains : List Char → List Char → Bool
  | [], pat => pat.isEmpty
  | a :: rest, pat => chStart (a :: rest) pat || chContains rest pat

def strContainsSub (s pat : String) : Bool :=
  chContains s.data pat.data

def strLower (s : String) : String :=
  String.mk (s.data.map Char.toLower)

def splitOnChar (sep : Char) : List Char → List (List Char)
  | [] => [[]]
  | c :: cs =>
      let r := splitOnChar sep cs
      if c = sep then [] :: r
      else
        match r with
        | [] => [[c]]
        | h :: t => (c :: h) :: t

def splitSlash (s : String) : List String :=
  (splitOnChar '/' s.data).map String.mk

def splitDot (s : String) : List String :=
  (splitOnChar '.' s.data).map String.mk

def digitsVal : List Char → Nat → Nat
  | [], acc => acc
  | c :: cs, acc => digitsVal cs (acc * 10 + (c.toNat - 48))

def strToNat (s : String) : Nat :=
  digitsVal s.data 0

/-- Model of big.Int SetString with base 10: an optional sign followed by a
nonempty run of decimal digits; anything else fails. -/
def parseBigInt (s : String) : Option Int :=
  match s.data with
  | [] => none
  | '+' :: rest =>
      if rest ≠ [] && rest.all Char.isDigit then some (digitsVal rest 0) else none
  | '-' :: rest =>
      if rest ≠ [] && rest.all Char.isDigit then some (-(digitsVal rest 0 : Int)) else none
  | l =>
      if l.all Char.isDigit then some (digitsVal l 0) else none

/-! ## Exact fractions standing for math/big arbitrary-precision values.
All the divisions these functions perform are kept unnormalized, so every
operation below is plain Int arithmetic that the kernel can evaluate; the
mathematical value of a fraction is given by Frac.toRat.  At every input
appearing in the claims the computation is exact (powers of two and ten),
so this model agrees with Go's big.Float. -/

structure Frac where
  num : Int
  den : Int
deriving DecidableEq

def Frac.ofInt (n : Int) : Frac :=
  { num := n, den := 1 }

/-- Divide a fraction by a positive integer literal. -/
def Frac.divInt (f : Frac) (k : Int) : Frac :=
  { num := f.num, den := f.den * k }

/-- Comparison of fractions, correct when both denominators are positive
(every denominator built below is a positive power of two or ten). -/
def Frac.blt (a b : Frac) : Bool :=
  a.num * b.den < b.num * a.den

/-- Nearest integer, halves rounded up, for a fraction with positive
denominator: floor ((2 num + den) / (2 den)). -/
def Frac.roundHalf (f : Frac) : Int :=
  Int.fdiv (2 * f.num + f.den) (2 * f.den)

/-- The mathematical value of a fraction. -/
def Frac.toRat (f : Frac) : ℚ :=
  (f.num : ℚ) / (f.den : ℚ)

/-! ## Numeric rendering (fmt.Sprintf with a fixed number of decimals).
Go rounds the value to the requested number of decimals; at every input
appearing in the claims the value is an exact small integer, where any
nearest rounding agrees. -/

def padZeros (k : Nat) (s : String) : String :=
  String.mk (List.replicate (k - s.length) '0') ++ s

def renderFixed (decimals : Nat) (f : Frac) : String :=
  let scaled := Frac.roundHalf { num := f.num * ((10 ^ decimals : Nat) : Int), den := f.den }
  let sign := if scaled < 0 then "-" else ""
  let m := scaled.natAbs
  let ip := m / 10 ^ decimals
  let fp := m % 10 ^ decimals
  sign ++ toString ip ++ "." ++ padZeros decimals (toString fp)

/-! ## formatBytes, formatAttoFil, calculatePowerShare
(translated from client.go; the second copy of the package has the
byte-for-byte identical functions) -/

def byteUnits : List String := ["B", "KiB", "MiB", "GiB", "TiB", "PiB", "EiB"]

/-- The unit-selection loop of formatBytes: repeatedly divide by 1024 while
the quotient is still at least 1, at most len(units)-1 = 6 times; returns the
scaled value and the number of divisions performed (the unit index). -/
def byteLoop : Nat → Frac → Frac × Nat
  | 0, size => (size, 0)
  | fuel + 1, size =>
      if Frac.blt (size.divInt 1024) (Frac.ofInt 1) then (size, 0)
      else
        let r := byteLoop fuel (size.divInt 1024)
        (r.1, r.2 + 1)

def formatBytes (bytes : String) : String :=
  if bytes = "" then "0 B"
  else
    match parseBigInt bytes with
    | none => "0 B"
    | some b =>
        let r := byteLoop 6 (Frac.ofInt b)
        renderFixed 2 r.1 ++ " " ++ byteUnits.getD r.2 "B"

def formatAttoFil (attoFil : String) : String :=
  if attoFil = "" then "0 FIL"
  else
    match parseBigInt attoFil with
    | none => "0 FIL"
    | some a => renderFixed 6 { num := a, den := 1000000000000000000 } ++ " FIL"

def calculatePowerShare (minerPower totalPower : String) : Frac :=
  if minerPower = "" then Frac.ofInt 0
  else if totalPower = "" then Frac.ofInt 0
  else
    match parseBigInt minerPower with
    | none => Frac.ofInt 0
    | some m =>
        match parseBigInt totalPower with
        | none => Frac.ofInt 0
        | some t => if t = 0 then Frac.ofInt 0 else { num := m * 100, den := t }


/-! ## Endpoint resolution.
The second copy of the package resolves the endpoint inside callRPC: strings
beginning with a network-multiaddress prefix are parsed into an IP literal
and TCP port and turned into an HTTP URL; everything else is passed through
unchanged.  go-multiaddr is modelled for the address shapes the claims are
about: slash-separated /ip4/A.B.C.D/tcp/P (and the /ip6/ analogue) with a
canonical IP literal and in-range port. -/

def isValidOctet (s : String) : Bool :=
  s ≠ "" && s.data.all Char.isDigit && strToNat s ≤ 255 &&
    (s = "0" || s.data.head? ≠ some '0')

def isValidIPv4 (s : String) : Bool :=
  match splitDot s with
  | [a, b, c, d] => isValidOctet a && isValidOctet b && isValidOctet c && isValidOctet d
  | _ => false

def isHexChar (c : Char) : Bool :=
  c.isDigit || (('a' ≤ c && c ≤ 'f') || ('A' ≤ c && c ≤ 'F'))

def isValidIPv6 (s : String) : Bool :=
  s ≠ "" && s.data.all (fun c => isHexChar c || c = ':') && s.data.contains ':'

def isValidPort (s : String) : Bool :=
  s ≠ "" && s.data.all Char.isDigit && strToNat s ≤ 65535

/-- Model of parsing a multiaddress and extracting its IP literal and TCP
port (ma.NewMultiaddr followed by ValueForProtocol on P_IP4 or P_IP6 and
P_TCP). -/
def parseMultiaddrIpTcp (s : String) : Option (String × String) :=
  match splitSlash s with
  | ["", "ip4", ip, "tcp", port] =>
      if isValidIPv4 ip && isValidPort port then some (ip, port) else none
  | ["", "ip6", ip, "tcp", port] =>
      if isValidIPv6 ip && isValidPort port then some (ip, port) else none
  | _ => none

deriving instance DecidableEq for Except

/-- Endpoint resolution as performed at the top of the second copy's callRPC:
multiaddress-prefixed endpoints are rewritten to http URLs, every other
string is passed through unchanged. -/
def resolveEndpoint (apiURL : String) : Except String String :=
  if strStarts apiURL "/ip4/" || strStarts apiURL "/ip6/" then
    match parseMultiaddrIpTcp apiURL with
    | some p => Except.ok ("http://" ++ p.1 ++ ":" ++ p.2 ++ "/rpc/v0")
    | none => Except.error "failed to parse multiaddr"
  else Except.ok apiURL


/-! ## Transports and the three retry wrappers.
A transport abstracts one full JSON-RPC round trip (HTTP request, envelope
decoding and error classification): given the method, the positional
parameter list and the zero-based attempt index it yields either the decoded
result or the message of the classified error.  Every wrapper returns its
result together with the number of transport invocations it performed. -/

inductive Param where
  | str : String → Param
  | nul : Param
  | flag : Bool → Param
  | num : Nat → Param
deriving DecidableEq

abbrev TransportFn (α : Type) : Type :=
  String → List Param → Nat → Except String α

/-- The attempt loop shared by the retrying wrappers: make up to fuel
attempts starting at attempt index i, stopping at the first success and
otherwise returning the error of the last attempt, together with the number
of attempts made.  Callers always pass fuel at least 1 (Go's loop over
i from 0 to retryCount runs at least once). -/
def attemptLoop (t : TransportFn α) (method : String) (params : List Param) :
    Nat → Nat → Except String α × Nat
  | 0, _ => (Except.error "no attempt was made", 0)
  | 1, i => (t method params i, 1)
  | fuel + 2, i =>
      match t method params i with
      | Except.ok v => (Except.ok v, 1)
      | Except.error _ =>
          let r := attemptLoop t method params (fuel + 1) (i + 1)
          (r.1, r.2 + 1)

/-- client.go's second, retrying callRPC: attempts the call retryCount+1
times, retrying every failure (it never consults an error classifier), and
returns the error of the last attempt. -/
def ClientV2.callRPC (retryCount : Nat) (t : TransportFn α) (method : String)
    (params : List Param) : Except String α × Nat :=
  attemptLoop t method params (retryCount + 1) 0

/-- client.go's first callRPCWithRetry: despite its name it performs exactly
one attempt; before that it requires the configured endpoint to be nonempty
and parseable as a multiaddress (it never accepts a plain http URL). -/
def ClientV1.callRPCWithRetry (apiURL : String) (t : TransportFn α) (method : String)
    (params : List Param) : Except String α × Nat :=
  if apiURL = "" then (Except.error "LOTUS_API_URL is not set", 0)
  else
    match parseMultiaddrIpTcp apiURL with
    | none => (Except.error "invalid multiaddr", 0)
    | some _ => (t method params 0, 1)

/-- The second copy's callRPC: resolve the endpoint, then one transport
round trip. -/
def ClientP12.callRPC (apiURL : String) (t : TransportFn α) (method : String)
    (params : List Param) (i : Nat) : Except String α × Nat :=
  match resolveEndpoint apiURL with
  | Except.error e => (Except.error e, 0)
  | Except.ok _ => (t method params i, 1)

/-- The second copy's callRPCWithRetry: a fixed loop of three callRPC
attempts, stopping at the first success and returning the last error.  The
configured retryCount is not consulted (the Config field is dropped at
construction). -/
def ClientP12.callRPCWithRetry (apiURL : String) (t : TransportFn α) (method : String)
    (params : List Param) : Except String α × Nat :=
  let a0 := ClientP12.callRPC apiURL t method params 0
  match a0.1 with
  | Except.ok v => (Except.ok v, a0.2)
  | Except.error _ =>
      let a1 := ClientP12.callRPC apiURL t method params 1
      match a1.1 with
      | Except.ok v => (Except.ok v, a0.2 + a1.2)
      | Except.error _ =>
          let a2 := ClientP12.callRPC apiURL t method params 2
          (a2.1, a0.2 + a1.2 + a2.2)

/-- isRetryableError from client.go: an error is retryable when its
lowercased message contains one of these substrings.  (The "EOF" entry is
kept verbatim from the source; since the message is lowercased first it can
never match.) -/
def retryableSubstrings : List String :=
  ["connection reset", "connection refused", "timeout", "i/o timeout", "EOF",
   "network is unreachable", "500", "503", "504"]

def isRetryableError (msg : String) : Bool :=
  retryableSubstrings.any (fun sub => strContainsSub (strLower msg) sub)

/-- The body of asyncRetry from client.go: up to three invocations of the
operation, stopping at the first success or at the first error that
isRetryableError rejects; returns the number of invocations performed.  (The
surrounding goroutine and backoff sleeps carry no data flow.) -/
def asyncRetryRun (fn : Nat → Option String) : Nat :=
  match fn 0 with
  | none => 1
  | some e =>
      if isRetryableError e then
        match fn 1 with
        | none => 2
        | some e2 => if isRetryableError e2 then 3 else 2
      else 1


/-! ## Domain-client methods over a transport (client.go, first variant) -/

/-- ListSectors from client.go: no validation of the miner identifier; the
positional parameters [minerID, null, false] go straight to the wrapper. -/
def ClientV1.ListSectors (apiURL : String) (t : TransportFn α) (minerID : String) :
    Except String α × Nat :=
  ClientV1.callRPCWithRetry apiURL t "Filecoin.StateMinerSectors"
    [Param.str minerID, Param.nul, Param.flag false]

/-- GetBalance from client.go: an empty address short-circuits to "0" with no
error and no network call; otherwise one WalletBalance call, returning "0"
plus a wrapped error message on failure.  Result: (value, error, number of
transport invocations). -/
def ClientV1.GetBalance (apiURL : String) (t : TransportFn String) (address : String) :
    String × Option String × Nat :=
  if address = "" then ("0", none, 0)
  else
    let r := ClientV1.callRPCWithRetry apiURL t "Filecoin.WalletBalance" [Param.str address]
    match r.1 with
    | Except.ok v => (v, none, r.2)
    | Except.error e => ("0", some ("failed to get balance: " ++ e), r.2)

/-! ## The aggregators.
Above the wrapper level the remote node is abstracted as a record of
per-procedure outcomes (the call-counting fake Domain Client of the
specification's testable properties): each field is the classified outcome
that any call of that procedure observes.  Option-valued leaves model Go's
comma-ok map/type assertions, and Option-valued result fields model Go's
zero values (none = the field was never assigned). -/

/-- The fields the aggregators read out of the StateMinerInfo result map,
each present when the key exists with the asserted dynamic type. -/
structure BasicInfo where
  owner : Option String
  worker : Option String
  beneficiary : Option String
  controlAddresses : Option (List String)
  sectorSize : Option Nat
  windowPoStProofType : Option Nat

/-- Fields read out of the StateGetActor result map. -/
structure ActorV1 where
  balance : Option String
  nonce : Option Nat

/-- Fields read out of the StateMinerPower result map. -/
structure PowerV1 where
  minerRaw : Option String
  minerQuality : Option String
  totalRaw : Option String
  totalQuality : Option String

/-- Outcome-valued fake of the remote node, as consulted by client.go's
tolerant aggregator.  The GetMinerPowerRank helper's internal RPC fan-out is
collapsed into its overall outcome. -/
structure FakeV1 where
  minerInfo : Except String BasicInfo
  sectors : Except String (List Unit)
  provingDeadline : Except String Unit
  availableBalance : Except String String
  vestingFunds : Except String Unit
  faults : Except String (List Nat)
  recoveries : Except String (List Nat)
  walletBalance : String → Except String String
  actorInfo : Except String ActorV1
  robust : Except String String
  actorState : Except String (Option Nat)
  power : Except String PowerV1
  pledge : Except String String
  powerRank : Except String (Nat × Nat)
  chainHead : Except String (Option Nat)

/-- The enriched StateMinerInfo result map built by client.go's GetMinerInfo:
the mandatory basic fields plus six best-effort extra keys, each stored only
when its call succeeded. -/
structure EnrichedV1 where
  base : BasicInfo
  sectorsInfo : Option (List Unit)
  deadlineInfo : Option Unit
  availableBalance : Option String
  vestingFunds : Option Unit
  faults : Option (List Nat)
  recoveries : Option (List Nat)

/-- GetMinerInfo from client.go: reject an empty miner identifier locally,
require StateMinerInfo to succeed, then make six further calls whose
failures only leave their keys out of the result map.  The second component
counts the remote calls that were issued. -/
def ClientV1.GetMinerInfo (minerID : String) (f : FakeV1) :
    Except String EnrichedV1 × Nat :=
  if minerID = "" then (Except.error "miner ID cannot be empty", 0)
  else
    match f.minerInfo with
    | Except.error e => (Except.error ("failed to get miner info: " ++ e), 1)
    | Except.ok b =>
        (Except.ok
          { base := b
            sectorsInfo := f.sectors.toOption
            deadlineInfo := f.provingDeadline.toOption
            availableBalance := f.availableBalance.toOption
            vestingFunds := f.vestingFunds.toOption
            faults := f.faults.toOption
            recoveries := f.recoveries.toOption }, 7)

/-- GetBalance as used inside the aggregator, with the caller's err == nil
guard folded in: some value when the balance may be stored, none when the
call failed; alongside the number of network calls. -/
def ClientV1.getBalanceOpt (f : FakeV1) (addr : String) : Option String × Nat :=
  if addr = "" then (some "0", 0)
  else
    match f.walletBalance addr with
    | Except.ok v => (some v, 1)
    | Except.error _ => (none, 1)

/-- GetBalance as used for control addresses, where the source discards the
error and stores the returned value (which is "0" on failure). -/
def ClientV1.getBalanceVal (f : FakeV1) (addr : String) : String × Nat :=
  if addr = "" then ("0", 0)
  else
    match f.walletBalance addr with
    | Except.ok v => (v, 1)
    | Except.error _ => ("0", 1)

/-- The comprehensive record assembled by client.go's aggregator (the fields
its sub-calls actually assign).  Every field starts at its zero value. -/
structure MinerInfoV1 where
  id : String := ""
  address : String := ""
  actor : String := ""
  robust : String := ""
  balance : String := ""
  messageCount : Nat := 0
  ownerAddress : String := ""
  ownerBalance : Option String := none
  workerAddress : String := ""
  workerBalance : Option String := none
  beneficiaryAddress : Option String := none
  beneficiaryBalance : Option String := none
  controlAddresses : Option (List (String × String)) := none
  sectorSize : Option Nat := none
  createHeight : Option Nat := none
  rawBytePower : Option String := none
  qualityAdjPower : Option String := none
  networkRawBytePower : Option String := none
  networkQualityAdjPower : Option String := none
  sectorsLive : Option Nat := none
  sectorsActive : Option Nat := none
  sectorsFaulty : Option Nat := none
  availableBalance : Option String := none
  initialPledgeRequirement : Option String := none
  rawBytePowerRank : Option Nat := none
  qualityAdjPowerRank : Option Nat := none
  lastSeenHeight : Option Nat := none

/-- processBasicInfo from client.go: the owner and worker addresses are
mandatory (a missing one fails the aggregate), the beneficiary, control
addresses and sector size are optional; each address gets a best-effort
balance lookup. -/
def ClientV1.processBasicInfo (f : FakeV1) (info : MinerInfoV1) (b : EnrichedV1) :
    Except String MinerInfoV1 × Nat :=
  match b.base.owner with
  | none => (Except.error "owner address not found", 0)
  | some o =>
      match b.base.worker with
      | none => (Except.error "worker address not found", (ClientV1.getBalanceOpt f o).2)
      | some w =>
          let ownerB := ClientV1.getBalanceOpt f o
          let workerB := ClientV1.getBalanceOpt f w
          let benB := match b.base.beneficiary with
                      | none => ((none : Option String), 0)
                      | some x => ClientV1.getBalanceOpt f x
          let ctl := match b.base.controlAddresses with
                     | none => ((none : Option (List (String × String))), 0)
                     | some l =>
                         (some (l.map (fun a2 => (a2, (ClientV1.getBalanceVal f a2).1))),
                          (l.map (fun a2 => (ClientV1.getBalanceVal f a2).2)).sum)
          (Except.ok
            { info with
              ownerAddress := o
              ownerBalance := ownerB.1
              workerAddress := w
              workerBalance := workerB.1
              beneficiaryAddress := b.base.beneficiary
              beneficiaryBalance := benB.1
              controlAddresses := ctl.1
              sectorSize := b.base.sectorSize },
           ownerB.2 + workerB.2 + benB.2 + ctl.2)

/-- processActorInfo from client.go (never fails). -/
def ClientV1.processActorInfo (info : MinerInfoV1) (a2 : ActorV1) : MinerInfoV1 :=
  { info with
    balance := (match a2.balance with | some s => s | none => info.balance)
    messageCount := (match a2.nonce with | some n => n | none => info.messageCount) }

/-- The eight concurrent tasks of client.go's aggregator, run through
asyncRetry, which discards their errors entirely: each field is assigned
only when its sub-call succeeds, otherwise it keeps its previous (zero)
value.  The tasks write disjoint fields, so this per-field form is
schedule-independent.  The count is the nine sub-calls the tasks issue. -/
def ClientV1.runTasks (f : FakeV1) (info : MinerInfoV1) : MinerInfoV1 × Nat :=
  ({ info with
     robust := (match f.robust with
                | Except.ok a2 => a2
                | Except.error _ => info.robust)
     createHeight := (match f.actorState with
                      | Except.ok (some h) => some h
                      | Except.ok none => info.createHeight
                      | Except.error _ => info.createHeight)
     rawBytePower := (match f.power with
                      | Except.ok p => (match p.minerRaw with
                                        | some s => some s
                                        | none => info.rawBytePower)
                      | Except.error _ => info.rawBytePower)
     qualityAdjPower := (match f.power with
                         | Except.ok p => (match p.minerQuality with
                                           | some s => some s
                                           | none => info.qualityAdjPower)
                         | Except.error _ => info.qualityAdjPower)
     networkRawBytePower := (match f.power with
                             | Except.ok p => (match p.totalRaw with
                                               | some s => some s
                                               | none => info.networkRawBytePower)
                             | Except.error _ => info.networkRawBytePower)
     networkQualityAdjPower := (match f.power with
                                | Except.ok p => (match p.totalQuality with
                                                  | some s => some s
                                                  | none => info.networkQualityAdjPower)
                                | Except.error _ => info.networkQualityAdjPower)
     sectorsLive := (match f.sectors with
                     | Except.ok l => some l.length
                     | Except.error _ => info.sectorsLive)
     sectorsActive := (match f.sectors with
                       | Except.ok l => some l.length
                       | Except.error _ => info.sectorsActive)
     sectorsFaulty := (match f.faults with
                       | Except.ok l => some l.length
                       | Except.error _ => info.sectorsFaulty)
     availableBalance := (match f.availableBalance with
                          | Except.ok v => some v
                          | Except.error _ => info.availableBalance)
     initialPledgeRequirement := (match f.pledge with
                                  | Except.ok v => some v
                                  | Except.error _ => info.initialPledgeRequirement)
     rawBytePowerRank := (match f.powerRank with
                          | Except.ok r => some r.1
                          | Except.error _ => info.rawBytePowerRank)
     qualityAdjPowerRank := (match f.powerRank with
                             | Except.ok r => some r.2
                             | Except.error _ => info.qualityAdjPowerRank)
     lastSeenHeight := (match f.chainHead with
                        | Except.ok (some h) => some h
                        | Except.ok none => info.lastSeenHeight
                        | Except.error _ => info.lastSeenHeight) },
   9)

/-- GetComprehensiveMinerInfo from client.go: empty identifier rejected
locally (no network call); GetMinerInfo, processBasicInfo and GetActorInfo
are foundational (their failure fails the aggregate and no record is
returned); the remaining tasks degrade to zero values. -/
def ClientV1.GetComprehensiveMinerInfo (minerID : String) (f : FakeV1) :
    Except String MinerInfoV1 × Nat :=
  if minerID = "" then (Except.error "miner ID cannot be empty", 0)
  else
    let info0 : MinerInfoV1 := { id := minerID, address := minerID, actor := "storageminer" }
    let m := ClientV1.GetMinerInfo minerID f
    match m.1 with
    | Except.error e => (Except.error ("failed to get basic info: " ++ e), m.2)
    | Except.ok b =>
        let pb := ClientV1.processBasicInfo f info0 b
        match pb.1 with
        | Except.error e => (Except.error e, m.2 + pb.2)
        | Except.ok info1 =>
            match f.actorInfo with
            | Except.error e => (Except.error ("failed to get actor info: " ++ e), m.2 + pb.2 + 1)
            | Except.ok a2 =>
                let info2 := ClientV1.processActorInfo info1 a2
                let r := ClientV1.runTasks f info2
                (Except.ok r.1, m.2 + pb.2 + 1 + r.2)

/-! ## The errgroup-based aggregator from the second copy of the package:
six concurrent tasks; the first failure among them makes the whole
aggregate return that error (wrapped), alongside the partially filled
record the Go function also returns. -/

/-- Go uint64 subtraction (wraps modulo 2^64), used for
activeSectors = totalSectors - len(faultySectors). -/
def u64sub (a b : Nat) : Nat :=
  (a + 2 ^ 64 - b % 2 ^ 64) % 2 ^ 64

/-- First of two optional errors, as errgroup.Wait keeps the first error. -/
def orFirst (a b : Option String) : Option String :=
  match a with
  | some x => some x
  | none => b

/-- Fields read out of the StateMinerProvingDeadline result map (each via a
comma-ok assertion). -/
structure DeadlineP12 where
  currentEpoch : Option Nat
  deadlineIndex : Option Nat
  periodStart : Option Nat

/-- Outcome-valued fake of the remote node for the errgroup aggregator.
Option-valued successes model the comma-ok type assertions applied to the
decoded results. -/
structure FakeP12 where
  minerInfo : Except String BasicInfo
  power : Except String PowerV1
  availableBalance : Except String String
  initialPledge : Except String (Option String)
  preCommitDeposit : Except String (Option String)
  vestingFunds : Except String (Option String)
  faults : Except String (List Nat)
  recovering : Except String (Option (List Nat))
  live : Except String (Option (List Nat))
  deadlines : Except String Unit
  provingDeadline : Except String DeadlineP12

/-- The MinerInfo record of the second copy (the fields its tasks assign),
every field starting at its Go zero value. -/
structure MinerInfoP12 where
  basicInfoPresent : Bool := false
  sectorSize : Option Nat := none
  windowPoStProofType : Option Nat := none
  workerAddress : String := ""
  ownerAddress : String := ""
  beneficiary : String := ""
  controlAddresses : Option (List String) := none
  powerPresent : Bool := false
  rawBytePower : String := ""
  qualityAdjPower : String := ""
  networkPowerShare : Frac := Frac.ofInt 0
  availableBalance : String := ""
  initialPledge : String := ""
  preCommitDeposits : String := ""
  vestingFunds : String := ""
  totalSectors : Nat := 0
  activeSectors : Nat := 0
  faultySectors : List Nat := []
  recoveringSectors : List Nat := []
  liveSectors : List Nat := []
  currentDeadline : Option Nat := none
  currentEpoch : Option Nat := none
  provingPeriodStart : Option Nat := none
  deadlinesPresent : Bool := false
  provingDeadlinePresent : Bool := false

/-- The basic-info task: GetMinerInfo plus comma-ok field extraction. -/
def ClientP12.taskBasic (f : FakeP12) (info : MinerInfoP12) : MinerInfoP12 × Option String :=
  match f.minerInfo with
  | Except.error e => (info, some ("failed to get basic info: failed to get miner info: " ++ e))
  | Except.ok b =>
      ({ info with
         basicInfoPresent := true
         sectorSize := (match b.sectorSize with | some v => some v | none => info.sectorSize)
         windowPoStProofType := (match b.windowPoStProofType with
                                 | some v => some v
                                 | none => info.windowPoStProofType)
         controlAddresses := (match b.controlAddresses with
                              | some l => some l
                              | none => info.controlAddresses) },
       none)

/-- The power task: GetMinerPower, extraction of the miner and total power
strings, and the power-share computation. -/
def ClientP12.taskPower (f : FakeP12) (info : MinerInfoP12) : MinerInfoP12 × Option String :=
  match f.power with
  | Except.error e => (info, some ("failed to get power info: " ++ e))
  | Except.ok p =>
      match p.minerRaw, p.minerQuality with
      | some r, some q =>
          let info := { info with powerPresent := true, rawBytePower := r, qualityAdjPower := q }
          (match p.totalRaw with
           | some tr => ({ info with networkPowerShare := calculatePowerShare r tr }, none)
           | none => (info, none))
      | _, _ => ({ info with powerPresent := true }, none)

/-- The financial task: available balance, initial pledge, pre-commit
deposits and vesting funds, each call mandatory for the task (its failure is
the task's error) with partial writes kept. -/
def ClientP12.taskFinancial (f : FakeP12) (info : MinerInfoP12) : MinerInfoP12 × Option String :=
  match f.availableBalance with
  | Except.error e => (info, some ("failed to get available balance: " ++ e))
  | Except.ok bal =>
      let info := { info with availableBalance := bal }
      match f.initialPledge with
      | Except.error e => (info, some ("failed to get initial pledge: " ++ e))
      | Except.ok p =>
          let info := (match p with
                       | some v => { info with initialPledge := v }
                       | none => info)
          match f.preCommitDeposit with
          | Except.error e => (info, some ("failed to get pre-commit deposits: " ++ e))
          | Except.ok d =>
              let info := (match d with
                           | some v => { info with preCommitDeposits := v }
                           | none => info)
              match f.vestingFunds with
              | Except.error e => (info, some ("failed to get vesting funds: " ++ e))
              | Except.ok v2 =>
                  ((match v2 with
                    | some v => { info with vestingFunds := v }
                    | none => info), none)

/-- The sector task: faults, recovering and live sectors; the derived counts
use Go uint64 arithmetic. -/
def ClientP12.taskSectors (f : FakeP12) (info : MinerInfoP12) : MinerInfoP12 × Option String :=
  match f.faults with
  | Except.error e => (info, some ("failed to get faults: " ++ e))
  | Except.ok fl =>
      let info := { info with faultySectors := fl }
      match f.recovering with
      | Except.error e => (info, some ("failed to get recovering sectors: " ++ e))
      | Except.ok r =>
          let info := (match r with
                       | some l => { info with recoveringSectors := l }
                       | none => info)
          match f.live with
          | Except.error e => (info, some ("failed to get live sectors: " ++ e))
          | Except.ok l2 =>
              ((match l2 with
                | some l =>
                    { info with
                      liveSectors := l
                      totalSectors := l.length
                      activeSectors := u64sub l.length info.faultySectors.length }
                | none => info), none)

/-- The deadline task: GetMinerDeadlines and GetMinerProvingDeadline are both
mandatory for the task; the epoch fields are comma-ok extractions. -/
def ClientP12.taskDeadlines (f : FakeP12) (info : MinerInfoP12) : MinerInfoP12 × Option String :=
  match f.deadlines with
  | Except.error e => (info, some ("failed to get deadlines: " ++ e))
  | Except.ok _ =>
      let info := { info with deadlinesPresent := true }
      match f.provingDeadline with
      | Except.error e => (info, some ("failed to get proving deadline: " ++ e))
      | Except.ok d =>
          ({ info with
             provingDeadlinePresent := true
             currentEpoch := (match d.currentEpoch with
                              | some v => some v
                              | none => info.currentEpoch)
             currentDeadline := (match d.deadlineIndex with
                                 | some v => some v
                                 | none => info.currentDeadline)
             provingPeriodStart := (match d.periodStart with
                                    | some v => some v
                                    | none => info.provingPeriodStart) },
           none)

/-- The address task: worker, owner and beneficiary addresses, each through
its own GetMinerInfo call and mandatory for the task. -/
def ClientP12.taskAddresses (f : FakeP12) (info : MinerInfoP12) : MinerInfoP12 × Option String :=
  match f.minerInfo with
  | Except.error e => (info, some ("failed to get worker address: failed to get miner info: " ++ e))
  | Except.ok b =>
      match b.worker with
      | none => (info, some "failed to get worker address: worker address not found in miner info")
      | some w =>
          let info := { info with workerAddress := w }
          match b.owner with
          | none => (info, some "failed to get owner address: owner address not found in miner info")
          | some o =>
              let info := { info with ownerAddress := o }
              match b.beneficiary with
              | none => (info, some "failed to get beneficiary address: beneficiary address not found in miner info")
              | some bn => ({ info with beneficiary := bn }, none)

/-- GetComprehensiveMinerInfo of the second copy: empty identifiers rejected
locally; otherwise all six errgroup tasks run and the first error among them
(wrapped) is returned next to the partially populated record.  The Go
function returns a nil record exactly in the empty-identifier case. -/
def ClientP12.GetComprehensiveMinerInfo (minerID : String) (f : FakeP12) :
    Option MinerInfoP12 × Option String :=
  if minerID = "" then (none, some "miner ID cannot be empty")
  else
    let info0 : MinerInfoP12 := {}
    let s1 := ClientP12.taskBasic f info0
    let s2 := ClientP12.taskPower f s1.1
    let s3 := ClientP12.taskFinancial f s2.1
    let s4 := ClientP12.taskSectors f s3.1
    let s5 := ClientP12.taskDeadlines f s4.1
    let s6 := ClientP12.taskAddresses f s5.1
    let firstErr := orFirst s1.2 (orFirst s2.2 (orFirst s3.2 (orFirst s4.2 (orFirst s5.2 s6.2))))
    (some s6.1, firstErr.map (fun e => "failed to get comprehensive miner info: " ++ e))

/-! ## Concrete fakes and transports used as witnesses -/

def basicAllPresent : BasicInfo :=
  { owner := some "f0owner"
    worker := some "f0worker"
    beneficiary := some "f0ben"
    controlAddresses := some []
    sectorSize := some 34359738368
    windowPoStProofType := some 8 }

def actorDefault : ActorV1 :=
  { balance := some "100", nonce := some 5 }

def powerDefault : PowerV1 :=
  { minerRaw := some "1024"
    minerQuality := some "1024"
    totalRaw := some "1048576"
    totalQuality := some "1048576" }

def fakeV1Default : FakeV1 :=
  { minerInfo := Except.ok basicAllPresent
    sectors := Except.ok [(), ()]
    provingDeadline := Except.ok ()
    availableBalance := Except.ok "42"
    vestingFunds := Except.ok ()
    faults := Except.ok []
    recoveries := Except.ok []
    walletBalance := fun _ => Except.ok "7"
    actorInfo := Except.ok actorDefault
    robust := Except.ok "f2robust"
    actorState := Except.ok (some 10)
    power := Except.ok powerDefault
    pledge := Except.ok "13"
    powerRank := Except.ok (1, 1)
    chainHead := Except.ok (some 100) }

/-- fakeV1Default with the proving-deadline and faults sub-calls failing. -/
def fakeV1C7 : FakeV1 :=
  { fakeV1Default with
    provingDeadline := Except.error "boom1"
    faults := Except.error "boom2" }

/-- fakeV1Default with the foundational miner-info call failing. -/
def fakeV1NF : FakeV1 :=
  { fakeV1Default with minerInfo := Except.error "actor not found" }

/-- An errgroup-aggregator fake in which every sub-call succeeds except the
deadlines query. -/
def fakeP12C7 : FakeP12 :=
  { minerInfo := Except.ok basicAllPresent
    power := Except.ok powerDefault
    availableBalance := Except.ok "1000000000000000000"
    initialPledge := Except.ok (some "0")
    preCommitDeposit := Except.ok (some "0")
    vestingFunds := Except.ok (some "0")
    faults := Except.ok []
    recovering := Except.ok none
    live := Except.ok (some [1, 2, 3])
    deadlines := Except.error "deadline query failed"
    provingDeadline := Except.ok { currentEpoch := none, deadlineIndex := none, periodStart := none } }

/-- An errgroup-aggregator fake in which the foundational miner-info call
fails and everything else succeeds. -/
def fakeP12NF : FakeP12 :=
  { minerInfo := Except.error "actor not found"
    power := Except.ok powerDefault
    availableBalance := Except.ok "1"
    initialPledge := Except.ok none
    preCommitDeposit := Except.ok none
    vestingFunds := Except.ok none
    faults := Except.ok []
    recovering := Except.ok none
    live := Except.ok none
    deadlines := Except.ok ()
    provingDeadline := Except.ok { currentEpoch := none, deadlineIndex := none, periodStart := none } }

def tOkUnit : TransportFn Unit :=
  fun _ _ _ => Except.ok ()

def tBal : TransportFn String :=
  fun _ _ _ => Except.ok "99"

def tAuth : TransportFn Unit :=
  fun _ _ _ => Except.error "401 unauthorized"

/-! ## Helper lemmas -/

theorem parseLoopback :
    parseMultiaddrIpTcp "/ip4/127.0.0.1/tcp/1234" = some ("127.0.0.1", "1234") := by decide

theorem resolveLoopback :
    resolveEndpoint "/ip4/127.0.0.1/tcp/1234" = Except.ok "http://127.0.0.1:1234/rpc/v0" := by decide

/-- On a transport whose every attempt fails, the attempt loop performs
exactly its fuel many attempts and returns the error of the last one. -/
theorem attemptLoop_allFail {α : Type} (t : TransportFn α) (m : String) (p : List Param)
    (e : Nat → String) (h : ∀ i, t m p i = Except.error (e i)) :
    ∀ fuel start, attemptLoop t m p (fuel + 1) start
      = (Except.error (e (start + fuel)), fuel + 1) := by
  intro fuel
  induction fuel with
  | zero => intro start; simp [attemptLoop, h start]
  | succ n ih =>
      intro start
      have hs := h start
      have hrec := ih (start + 1)
      have harith : start + 1 + n = start + (n + 1) := by omega
      rw [harith] at hrec
      simp [attemptLoop, hs, hrec]

/-! ## Claim C4 -/

/-- Claim C4 counterexample: formatBytes "0" parses the zero successfully and
renders it with two decimal places, giving "0.00 B" rather than the claimed
"0 B". -/
theorem claimC4_counterexample :
    formatBytes "0" = "0.00 B" ∧ formatBytes "0" ≠ "0 B" :=
  ⟨by decide, by decide⟩

/-- Claim C4 (amended): formatBytes is total on strings; it renders
formatBytes "0" as "0.00 B" (two decimals, not the bare "0 B"), and as
claimed formatBytes "1024" is "1.00 KiB", formatBytes "1073741824" is
"1.00 GiB", and the empty string and every input that big-integer parsing
rejects give "0 B" rather than failing. -/
theorem claimC4_amended :
    formatBytes "0" = "0.00 B" ∧ formatBytes "1024" = "1.00 KiB" ∧
    formatBytes "1073741824" = "1.00 GiB" ∧ formatBytes "" = "0 B" ∧
    ∀ s : String, parseBigInt s = none → formatBytes s = "0 B" := by
  refine ⟨by decide, by decide, by decide, by decide, ?_⟩
  intro s h
  by_cases hs : s = ""
  · simp [formatBytes, hs]
  · simp [formatBytes, hs, h]

/-- Claim C4 witness: the unparseable-input clause at a concrete input. -/
theorem claimC4_witness :
    parseBigInt "watermelon" = none ∧ formatBytes "watermelon" = "0 B" :=
  ⟨by decide, claimC4_amended.2.2.2.2 "watermelon" (by decide)⟩

/-! ## Claim C5 -/

/-- Claim C5: formatAttoFil is a total pure function on strings; it divides
by 10^18 and renders six decimals with the FIL suffix, so
formatAttoFil "1000000000000000000" is "1.000000 FIL"; the empty string and
every unparseable input give "0 FIL" rather than failing. -/
theorem claimC5 :
    formatAttoFil "1000000000000000000" = "1.000000 FIL" ∧
    formatAttoFil "" = "0 FIL" ∧
    ∀ s : String, parseBigInt s = none → formatAttoFil s = "0 FIL" := by
  refine ⟨by decide, by decide, ?_⟩
  intro s h
  by_cases hs : s = ""
  · simp [formatAttoFil, hs]
  · simp [formatAttoFil, hs, h]

/-- Claim C5 witness: the unparseable-input clause at a concrete input. -/
theorem claimC5_witness :
    parseBigInt "not-a-number" = none ∧ formatAttoFil "not-a-number" = "0 FIL" :=
  ⟨by decide, claimC5.2.2 "not-a-number" (by decide)⟩

/-! ## Claim C9 -/

/-- Claim C9 counterexample: calculatePowerShare multiplies by 100 before
dividing, so for equal miner and network power it returns 100, which is not
the claimed ratio 1 and lies outside [0,1]. -/
theorem claimC9_counterexample :
    calculatePowerShare "1" "1" = { num := 100, den := 1 } ∧
    ¬ Frac.toRat (calculatePowerShare "1" "1") ≤ 1 := by
  have h : calculatePowerShare "1" "1" = { num := 100, den := 1 } := by decide
  refine ⟨h, ?_⟩
  rw [h]
  norm_num [Frac.toRat]

/-- Claim C9 (amended): for well-formed decimal powers with non-zero network
total, calculatePowerShare computes the exact arbitrary-precision fraction
(minerPower * 100) / networkPower, a percentage; whenever
0 <= minerPower <= networkPower its value lies in [0, 100] (not [0, 1]). -/
theorem claimC9_amended (a b : Int) (m t : String)
    (hm : m ≠ "") (ht : t ≠ "")
    (ha : parseBigInt m = some a) (hb : parseBigInt t = some b)
    (hb0 : b ≠ 0) :
    calculatePowerShare m t = { num := a * 100, den := b } ∧
    (0 ≤ a → a ≤ b → 0 ≤ Frac.toRat (calculatePowerShare m t) ∧
      Frac.toRat (calculatePowerShare m t) ≤ 100) := by
  have hcps : calculatePowerShare m t = { num := a * 100, den := b } := by
    simp [calculatePowerShare, hm, ht, ha, hb, hb0]
  refine ⟨hcps, ?_⟩
  intro ha0 hab
  have hbpos : (0 : Int) < b := lt_of_le_of_ne (le_trans ha0 hab) (Ne.symm hb0)
  rw [hcps]
  unfold Frac.toRat
  have hbq : (0 : ℚ) < (b : ℚ) := by exact_mod_cast hbpos
  have haq : (0 : ℚ) ≤ (a : ℚ) := by exact_mod_cast ha0
  have habq : (a : ℚ) ≤ (b : ℚ) := by exact_mod_cast hab
  constructor
  · apply div_nonneg
    · push_cast
      nlinarith
    · exact le_of_lt hbq
  · rw [div_le_iff₀ hbq]
    push_cast
    nlinarith

/-- Claim C9 witness: the amended theorem at minerPower 1 of networkPower 2,
giving the percentage 50 within [0, 100]. -/
theorem claimC9_witness :
    calculatePowerShare "1" "2" = { num := 1 * 100, den := 2 } ∧
    (0 ≤ (1 : Int) → (1 : Int) ≤ 2 → 0 ≤ Frac.toRat (calculatePowerShare "1" "2") ∧
      Frac.toRat (calculatePowerShare "1" "2") ≤ 100) :=
  claimC9_amended 1 2 "1" "2" (by decide) (by decide) (by decide) (by decide) (by decide)

/-! ## Claim C3 -/

/-- Claim C3 counterexample: an endpoint that is parseable neither as an
HTTP(S) URL nor as a multiaddress is passed through unchanged by endpoint
resolution, instead of failing with an InvalidRequest-class error. -/
theorem claimC3_counterexample :
    resolveEndpoint "not a url" = Except.ok "not a url" ∧
    ∀ e : String, resolveEndpoint "not a url" ≠ Except.error e := by
  have h : resolveEndpoint "not a url" = Except.ok "not a url" := by decide
  refine ⟨h, ?_⟩
  intro e he
  rw [h] at he
  exact Except.noConfusion he

/-- Claim C3 (amended): endpoint resolution is the identity on every string
that does not begin with a multiaddress prefix (in particular on every plain
http:// or https:// URL, but also on unparseable endpoints, which are not
rejected); a well-formed /ip4/A.B.C.D/tcp/P multiaddress resolves to exactly
http://A.B.C.D:P/rpc/v0; and only a malformed multiaddress-prefixed endpoint
fails, with a plain parse error (no InvalidRequest-class value exists on this
path). -/
theorem claimC3_amended :
    (∀ u : String, strStarts u "/ip4/" = false → strStarts u "/ip6/" = false →
        resolveEndpoint u = Except.ok u) ∧
    (∀ s ip port : String, strStarts s "/ip4/" = true →
        splitSlash s = ["", "ip4", ip, "tcp", port] →
        isValidIPv4 ip = true → isValidPort port = true →
        resolveEndpoint s = Except.ok ("http://" ++ ip ++ ":" ++ port ++ "/rpc/v0")) ∧
    (∀ s : String, strStarts s "/ip4/" = true → parseMultiaddrIpTcp s = none →
        resolveEndpoint s = Except.error "failed to parse multiaddr") := by
  refine ⟨?_, ?_, ?_⟩
  · intro u h1 h2
    simp [resolveEndpoint, h1, h2]
  · intro s ip port h1 h2 h3 h4
    simp [resolveEndpoint, h1, parseMultiaddrIpTcp, h2, h3, h4]
  · intro s h1 h2
    simp [resolveEndpoint, h1, h2]

/-- Claim C3 witness: the multiaddress clause of the amended theorem at a
concrete well-formed address. -/
theorem claimC3_witness :
    resolveEndpoint "/ip4/10.0.0.2/tcp/2345" = Except.ok "http://10.0.0.2:2345/rpc/v0" :=
  claimC3_amended.2.1 "/ip4/10.0.0.2/tcp/2345" "10.0.0.2" "2345"
    (by decide) (by decide) (by decide) (by decide)

/-! ## Claim C1 -/

/-- Claim C1 counterexample: the fixed-loop callRPCWithRetry invokes an
always-failing transport exactly 3 times whatever retryCount is configured
(the Config field is dropped at construction), so with retryCount 0 the
claimed count of 1 invocation is violated. -/
theorem claimC1_counterexample :
    ClientP12.callRPCWithRetry "/ip4/127.0.0.1/tcp/1234"
        (fun _ _ _ => (Except.error "connection refused" : Except String Unit))
        "Filecoin.ChainHead" []
      = (Except.error "connection refused", 3) := by decide

/-- Claim C1 (amended): on a transport whose every attempt fails with a
retryable classification, only the second, retrying callRPC of client.go
attempts exactly retryCount+1 times and fails with the error of the last
attempt; the wrappers named callRPCWithRetry ignore retryCount, one making a
fixed 3 attempts (failing with the last error) and the other exactly 1. -/
theorem claimC1_amended (N : Nat) (t : TransportFn Unit) (m : String) (p : List Param)
    (e : Nat → String) (h : ∀ i, t m p i = Except.error (e i)) :
    ClientV2.callRPC N t m p = (Except.error (e N), N + 1) ∧
    ClientP12.callRPCWithRetry "/ip4/127.0.0.1/tcp/1234" t m p = (Except.error (e 2), 3) ∧
    ClientV1.callRPCWithRetry "/ip4/127.0.0.1/tcp/1234" t m p = (Except.error (e 0), 1) := by
  refine ⟨?_, ?_, ?_⟩
  · have hl := attemptLoop_allFail t m p e h N 0
    simpa [ClientV2.callRPC] using hl
  · simp [ClientP12.callRPCWithRetry, ClientP12.callRPC, resolveLoopback, h 0, h 1, h 2]
  · simp [ClientV1.callRPCWithRetry, parseLoopback, h 0]

/-- Claim C1 witness: the amended theorem on a concrete transport that
always fails with "connection reset", at retryCount 1. -/
theorem claimC1_witness :
    ClientV2.callRPC 1 (fun _ _ _ => (Except.error "connection reset" : Except String Unit))
        "Filecoin.ChainHead" [] = (Except.error "connection reset", 2) ∧
    ClientP12.callRPCWithRetry "/ip4/127.0.0.1/tcp/1234"
        (fun _ _ _ => (Except.error "connection reset" : Except String Unit))
        "Filecoin.ChainHead" [] = (Except.error "connection reset", 3) ∧
    ClientV1.callRPCWithRetry "/ip4/127.0.0.1/tcp/1234"
        (fun _ _ _ => (Except.error "connection reset" : Except String Unit))
        "Filecoin.ChainHead" [] = (Except.error "connection reset", 1) :=
  claimC1_amended 1 (fun _ _ _ => Except.error "connection reset") "Filecoin.ChainHead" []
    (fun _ => "connection reset") (fun _ => rfl)

/-! ## Claim C2 -/

/-- Claim C2 counterexample: the retrying callRPC never consults the error
classification; a transport that always fails with the Authentication-class
message "unauthorized" (which isRetryableError indeed rejects) is still
invoked retryCount+1 = 2 times for retryCount 1, not once. -/
theorem claimC2_counterexample :
    isRetryableError "unauthorized" = false ∧
    ClientV2.callRPC 1 (fun _ _ _ => (Except.error "unauthorized" : Except String Unit))
        "Filecoin.ChainHead" []
      = (Except.error "unauthorized", 2) :=
  ⟨by decide, by decide⟩

/-- Claim C2 (amended): the retrying callRPC retries every failure uniformly,
invoking the transport retryCount+1 times even when the error is
non-retryable; the non-retryable short-circuit exists only in the
aggregator's asyncRetry helper, which invokes its operation exactly once
when the first error fails isRetryableError. -/
theorem claimC2_amended (N : Nat) (t : TransportFn Unit) (m : String) (p : List Param)
    (e : String) (h : ∀ i, t m p i = Except.error e)
    (hnr : isRetryableError e = false) :
    ClientV2.callRPC N t m p = (Except.error e, N + 1) ∧
    ∀ fn : Nat → Option String, fn 0 = some e → asyncRetryRun fn = 1 := by
  constructor
  · simpa [ClientV2.callRPC] using attemptLoop_allFail t m p (fun _ => e) h N 0
  · intro fn hfn
    simp [asyncRetryRun, hfn, hnr]

/-- Claim C2 witness: the amended theorem on a concrete always-unauthorized
transport at retryCount 2, and on an operation whose first error is that
same non-retryable message. -/
theorem claimC2_witness :
    ClientV2.callRPC 2 tAuth "Filecoin.ChainHead" [] = (Except.error "401 unauthorized", 3) ∧
    asyncRetryRun (fun _ => some "401 unauthorized") = 1 :=
  ⟨(claimC2_amended 2 tAuth "Filecoin.ChainHead" [] "401 unauthorized"
      (fun _ => rfl) (by decide)).1,
   (claimC2_amended 2 tAuth "Filecoin.ChainHead" [] "401 unauthorized"
      (fun _ => rfl) (by decide)).2 (fun _ => some "401 unauthorized") rfl⟩

/-! ## Claim C6 -/

/-- Claim C6 counterexample: ListSectors performs no local validation of the
miner identifier; with an empty identifier it still issues one network call
(carrying the empty identifier in its parameters) instead of failing locally
with zero calls. -/
theorem claimC6_counterexample :
    ClientV1.ListSectors "/ip4/127.0.0.1/tcp/1234" tOkUnit "" = (Except.ok (), 1) := by decide

/-- Claim C6 (amended): GetComprehensiveMinerInfo with an empty miner
identifier fails immediately with the plain error "miner ID cannot be empty"
(not a typed InvalidParams value) and issues zero network calls; ListSectors
has no such precondition and issues exactly one network call even for the
empty identifier. -/
theorem claimC6_amended (f : FakeV1) (t : TransportFn Unit) :
    ClientV1.GetComprehensiveMinerInfo "" f = (Except.error "miner ID cannot be empty", 0) ∧
    (ClientV1.ListSectors "/ip4/127.0.0.1/tcp/1234" t "").2 = 1 := by
  constructor
  · simp [ClientV1.GetComprehensiveMinerInfo]
  · simp [ClientV1.ListSectors, ClientV1.callRPCWithRetry, parseLoopback]

/-- Claim C6 witness: the amended theorem at a concrete fake and
transport. -/
theorem claimC6_witness :
    ClientV1.GetComprehensiveMinerInfo "" fakeV1Default
        = (Except.error "miner ID cannot be empty", 0) ∧
    (ClientV1.ListSectors "/ip4/127.0.0.1/tcp/1234" tOkUnit "").2 = 1 :=
  claimC6_amended fakeV1Default tOkUnit

/-! ## Claim C10 -/

/-- Claim C10: GetBalance with an empty address returns the string "0" with
no error and zero network calls; for a nonempty address (against a resolvable
endpoint) exactly one network call is made. -/
theorem claimC10 (t : TransportFn String) (addr : String) (h : addr ≠ "") :
    ClientV1.GetBalance "/ip4/127.0.0.1/tcp/1234" t "" = ("0", none, 0) ∧
    (ClientV1.GetBalance "/ip4/127.0.0.1/tcp/1234" t addr).2.2 = 1 := by
  constructor
  · simp [ClientV1.GetBalance]
  · rcases ht : t "Filecoin.WalletBalance" [Param.str addr] 0 with e | v <;>
      simp [ClientV1.GetBalance, h, ClientV1.callRPCWithRetry, parseLoopback, ht]

/-- Claim C10 witness: the theorem at a concrete transport and address. -/
theorem claimC10_witness :
    ClientV1.GetBalance "/ip4/127.0.0.1/tcp/1234" tBal "" = ("0", none, 0) ∧
    (ClientV1.GetBalance "/ip4/127.0.0.1/tcp/1234" tBal "f01234").2.2 = 1 :=
  claimC10 tBal "f01234" (by decide)

/-! ## Claim C7 -/

/-- Claim C7 counterexample: in the errgroup-based aggregator, a fake client
where every sub-call succeeds except the deadlines query makes the aggregate
return an error, not success with a zero-valued deadlines field. -/
theorem claimC7_counterexample :
    (ClientP12.GetComprehensiveMinerInfo "f01234" fakeP12C7).2
      = some "failed to get comprehensive miner info: failed to get deadlines: deadline query failed" := by
  decide

/-- Claim C7 (amended): only client.go's aggregator is partial-failure
tolerant: when the foundational miner-info and actor-info calls succeed (with
owner and worker present), failures of supplementary sub-calls — here the
proving-deadline enrichment and the faults task — are swallowed, the
aggregate returns success, the faults-derived field keeps its zero value, and
the enriched miner-info map simply lacks the deadline key.  The errgroup
aggregator of the second copy instead fails the whole aggregate on any
sub-call failure, including the deadlines query. -/
theorem claimC7_amended (minerID : String) (f : FakeV1) (b : BasicInfo) (o w : String)
    (a2 : ActorV1) (e1 e2 : String)
    (hid : minerID ≠ "")
    (hmi : f.minerInfo = Except.ok b)
    (ho : b.owner = some o) (hw : b.worker = some w)
    (ha : f.actorInfo = Except.ok a2)
    (hpd : f.provingDeadline = Except.error e1)
    (hf : f.faults = Except.error e2) :
    ∃ info k, ClientV1.GetComprehensiveMinerInfo minerID f = (Except.ok info, k) ∧
      info.sectorsFaulty = none ∧
      ∃ enr, (ClientV1.GetMinerInfo minerID f).1 = Except.ok enr ∧ enr.deadlineInfo = none := by
  simp [ClientV1.GetComprehensiveMinerInfo, ClientV1.GetMinerInfo,
    ClientV1.processBasicInfo, ClientV1.processActorInfo, ClientV1.runTasks,
    hid, hmi, ho, hw, ha, hpd, hf, Except.toOption]

/-- Claim C7 witness: the amended theorem at a concrete fake whose
proving-deadline and faults sub-calls fail. -/
theorem claimC7_witness :
    ∃ info k, ClientV1.GetComprehensiveMinerInfo "f01234" fakeV1C7 = (Except.ok info, k) ∧
      info.sectorsFaulty = none ∧
      ∃ enr, (ClientV1.GetMinerInfo "f01234" fakeV1C7).1 = Except.ok enr ∧
        enr.deadlineInfo = none :=
  claimC7_amended "f01234" fakeV1C7 basicAllPresent "f0owner" "f0worker" actorDefault
    "boom1" "boom2" (by decide) rfl rfl rfl rfl rfl rfl

/-! ## Claim C8 -/

/-- Claim C8 counterexample: in the errgroup-based aggregator, a failing
foundational miner-info call does surface the wrapped error, but the
function hands back the partially populated record alongside it: the
still-succeeding financial task's available balance "1" is present in the
returned record, refuting the claim that no synthesized partial record is
returned. -/
theorem claimC8_counterexample :
    (ClientP12.GetComprehensiveMinerInfo "f01234" fakeP12NF).2
      = some "failed to get comprehensive miner info: failed to get basic info: failed to get miner info: actor not found" ∧
    ((ClientP12.GetComprehensiveMinerInfo "f01234" fakeP12NF).1).isSome = true ∧
    ((ClientP12.GetComprehensiveMinerInfo "f01234" fakeP12NF).1).map
        (fun info => info.availableBalance) = some "1" := by
  refine ⟨by decide, by decide, by decide⟩

/-- Claim C8 (amended): when the foundational miner-info sub-call fails,
both aggregates fail with that error (its message wrapped and preserved).
client.go's aggregate returns no record at all after the single network
call; the errgroup aggregate of the second copy, however, returns the
partially populated record alongside its error. -/
theorem claimC8_amended (minerID : String) (f : FakeV1) (f12 : FakeP12) (e : String)
    (hid : minerID ≠ "")
    (h1 : f.minerInfo = Except.error e)
    (h2 : f12.minerInfo = Except.error e) :
    ClientV1.GetComprehensiveMinerInfo minerID f
      = (Except.error ("failed to get basic info: " ++ ("failed to get miner info: " ++ e)), 1) ∧
    ((ClientP12.GetComprehensiveMinerInfo minerID f12).2).isSome = true ∧
    ((ClientP12.GetComprehensiveMinerInfo minerID f12).1).isSome = true := by
  refine ⟨?_, ?_, ?_⟩
  · simp [ClientV1.GetComprehensiveMinerInfo, ClientV1.GetMinerInfo, hid, h1]
  · simp [ClientP12.GetComprehensiveMinerInfo, hid, ClientP12.taskBasic, h2, orFirst]
  · simp [ClientP12.GetComprehensiveMinerInfo, hid]

/-- Claim C8 witness: both aggregators at concrete fakes whose miner-info
call fails with "actor not found". -/
theorem claimC8_witness :
    ClientV1.GetComprehensiveMinerInfo "f01234" fakeV1NF
      = (Except.error ("failed to get basic info: " ++ ("failed to get miner info: " ++ "actor not found")), 1) ∧
    ((ClientP12.GetComprehensiveMinerInfo "f01234" fakeP12NF).2).isSome = true ∧
    ((ClientP12.GetComprehensiveMinerInfo "f01234" fakeP12NF).1).isSome = true :=
  claimC8_amended "f01234" fakeV1NF fakeP12NF "actor not found" (by decide) rfl rfl
